import Mathlib

/-!
Shallow embedding of the MT5 trading bot's risk-control core
(`src/bot/risk_manager.py`, the day-rollover and ACT steps of
`src/bot/main.py`, `MT5Connector.get_account_info` from
`src/bot/mt5_connector.py`, and `DatabaseManager.log_trade` from
`src/bot/database.py`).

Conventions of the embedding:
* Python floats are modelled as rationals (ℚ).
* Python dicts with optional keys are modelled as structures of `Option`
  fields; `d['k']` on a missing key is a `KeyError`, which every modelled
  function catches with its surrounding `try/except` and turns into the
  documented fallback return value, so each embedded function is total and
  the exception paths appear as explicit branches.
* `round(x, 2)` is modelled as exact round-half-to-even on ℚ.
* Mutation of `self` is modelled by threading the state value through and
  returning the updated state together with the function's return value.
-/

namespace MT5Bot

/-- A value stored under a dict key that the code passes to `int(...)`:
either it parses to an integer or `int` raises (and the `except` swallows
it). -/
inductive OpenPosVal where
  | intVal (n : ℤ)
  | unparsable
deriving DecidableEq, Repr

/-- The `account_info` dict consumed by `RiskManager.check_risk_limits`.
Every field is optional because the dict may lack any key; the dict built
by `MT5Connector.get_account_info` populates all keys except
`open_positions`. -/
structure AccountInfo where
  balance : Option ℚ := none
  equity : Option ℚ := none
  profit : Option ℚ := none
  margin : Option ℚ := none
  margin_free : Option ℚ := none
  margin_level : Option ℚ := none
  open_positions : Option OpenPosVal := none
deriving DecidableEq, Repr

/-- The `RiskManager` object: configuration fields (with the constructor's
default values) plus the mutable state `daily_start_balance`,
`daily_losses` and `position_peaks`. The peaks dict is an association
list from position ticket to peak PnL fraction. -/
structure RiskManager where
  max_risk_per_trade : ℚ := 1/50
  max_daily_loss : ℚ := 1/20
  max_positions : ℤ := 3
  max_leverage : ℚ := 10
  daily_start_balance : Option ℚ := none
  daily_losses : ℚ := 0
  position_peaks : List (ℤ × ℚ) := []
deriving DecidableEq, Repr

/-- Dict lookup `self.position_peaks.get(t)`. -/
def peaksLookup (l : List (ℤ × ℚ)) (t : ℤ) : Option ℚ :=
  (l.find? (fun p => p.1 == t)).map (fun p => p.2)

/-- Dict assignment `self.position_peaks[t] = v`. -/
def peaksInsert (l : List (ℤ × ℚ)) (t : ℤ) (v : ℚ) : List (ℤ × ℚ) :=
  (t, v) :: l.filter (fun p => p.1 != t)

/-- Dict deletion `del self.position_peaks[t]`. -/
def peaksErase (l : List (ℤ × ℚ)) (t : ℤ) : List (ℤ × ℚ) :=
  l.filter (fun p => p.1 != t)

/-- Body of `check_risk_limits` after the initial seeding of
`daily_start_balance` (source lines 41-77). A `(rm, false)` exit on a
`none` field is the `KeyError` caught by the method's `except` clause. -/
def check_body (rm : RiskManager) (info : AccountInfo) : RiskManager × Bool :=
  match info.balance with
  | none => (rm, false)
  | some current_balance =>
    let posReject : Bool :=
      match info.open_positions with
      | some (OpenPosVal.intVal n) => decide (rm.max_positions ≤ n)
      | _ => false
    if posReject then (rm, false)
    else
      match rm.daily_start_balance with
      | none => (rm, false)
      | some sb =>
        if sb ≤ 0 then (rm, false)
        else
          let daily_loss_pct := (sb - current_balance) / sb
          if rm.max_daily_loss ≤ daily_loss_pct then
            ({ rm with daily_losses := rm.daily_losses + max 0 (sb - current_balance) }, false)
          else
            if (info.margin_level.getD 1000) < 200 then (rm, false)
            else
              match info.equity with
              | none => (rm, false)
              | some eq =>
                if eq < current_balance * (4/5) then (rm, false)
                else (rm, true)

/-- `RiskManager.check_risk_limits` (source lines 33-81): seeds
`daily_start_balance` from `account_info['balance']` when unset (a missing
key there raises, caught as a `false` return), then runs the checks. -/
def check_risk_limits (rm : RiskManager) (info : AccountInfo) : RiskManager × Bool :=
  match rm.daily_start_balance with
  | none =>
    match info.balance with
    | none => (rm, false)
    | some b => check_body { rm with daily_start_balance := some b } info
  | some _ => check_body rm info

/-- Round-half-to-even to an integer, the semantics of Python `round`. -/
def roundEven (q : ℚ) : ℤ :=
  let f := Int.floor q
  let r := q - f
  if r < 1/2 then f
  else if 1/2 < r then f + 1
  else if f % 2 = 0 then f else f + 1

/-- Python `round(q, 2)`. -/
def round2 (q : ℚ) : ℚ := ((roundEven (q * 100) : ℚ)) / 100

/-- `RiskManager.calculate_position_size` (source lines 83-125). The
`stop_loss_pips <= 0` branch raises `ValueError`, and a zero pip value
raises `ZeroDivisionError`; both are caught by the method's own `except`,
which returns the 0.01 minimum. -/
def calculate_position_size (rm : RiskManager) (account_balance : ℚ)
    (stop_loss_pips : ℤ) (pip_value : ℚ) : ℚ :=
  let risk_amount := account_balance * rm.max_risk_per_trade
  let pip_value_per_lot := pip_value * 100000
  if stop_loss_pips ≤ 0 then 1/100
  else if (stop_loss_pips : ℚ) * pip_value_per_lot = 0 then 1/100
  else
    let ps0 := round2 (risk_amount / ((stop_loss_pips : ℚ) * pip_value_per_lot))
    let ps1 := if ps0 < 1/100 then 1/100 else ps0
    let max_position := account_balance / 100000 * rm.max_leverage
    if max_position < ps1 then max_position else ps1

/-- Position order side, the `position['type']` string. -/
inductive PosType where
  | BUY
  | SELL
deriving DecidableEq, Repr

/-- The position dict fields read by `should_close_position`. -/
structure Position where
  type : PosType
  price_open : ℚ
  volume : ℚ
  ticket : Option ℤ
deriving DecidableEq, Repr

/-- Signed PnL fraction relative to entry (source lines 135-138). -/
def pnl_pct (pos : Position) (current_price : ℚ) : ℚ :=
  match pos.type with
  | PosType.BUY => (current_price - pos.price_open) / pos.price_open
  | PosType.SELL => (pos.price_open - current_price) / pos.price_open

/-- The fixed profit threshold that arms trailing-stop tracking. -/
def profit_threshold : ℚ := 1/50

/-- `RiskManager.should_close_position` (source lines 127-179). A zero
entry price makes the PnL computation raise `ZeroDivisionError`, caught
as a `false` return with no state change. -/
def should_close_position (rm : RiskManager) (pos : Position) (current_price : ℚ) :
    RiskManager × Bool :=
  if pos.price_open = 0 then (rm, false)
  else
    let pnl := pnl_pct pos current_price
    if pnl ≤ -rm.max_risk_per_trade then
      ({ rm with
          daily_losses :=
            rm.daily_losses + max 0 (pos.volume * (pos.price_open - current_price)) }, true)
    else
      let rm1 :=
        match pos.ticket with
        | some t =>
          if profit_threshold < pnl then
            { rm with
                position_peaks :=
                  peaksInsert rm.position_peaks t
                    (max ((peaksLookup rm.position_peaks t).getD 0) pnl) }
          else rm
        | none => rm
      match pos.ticket with
      | some t =>
        match peaksLookup rm1.position_peaks t with
        | some peak =>
          if 0 < peak ∧ pnl ≤ peak / 2 then
            ({ rm1 with position_peaks := peaksErase rm1.position_peaks t }, true)
          else (rm1, false)
        | none => (rm1, false)
      | none => (rm1, false)

/-- `RiskManager.clear_position_peak` (source lines 215-221). -/
def clear_position_peak (rm : RiskManager) (t : ℤ) : RiskManager :=
  { rm with position_peaks := peaksErase rm.position_peaks t }

/-- The fields of the MT5 `account_info()` result that
`MT5Connector.get_account_info` reads. -/
structure RawAccount where
  balance : ℚ
  equity : ℚ
  profit : ℚ
  margin : ℚ
  margin_free : ℚ
  margin_level : ℚ
deriving DecidableEq, Repr

/-- `MT5Connector.get_account_info` (source lines 96-115), the successful
path: builds the account dict, reporting `margin_level` as 0 whenever
`margin` is not positive, and without an `open_positions` key. -/
def get_account_info (a : RawAccount) : AccountInfo :=
  { balance := some a.balance
    equity := some a.equity
    profit := some a.profit
    margin := some a.margin
    margin_free := some a.margin_free
    margin_level := some (if 0 < a.margin then a.margin_level else 0)
    open_positions := none }

/-- The orchestrator state touched by the day-rollover block of
`TradingBot.run` (source `main.py` lines 156-166): the bot's own counters
plus the `RiskManager` it owns. -/
structure BotState where
  current_trading_day : ℤ
  trades_today : ℕ
  daily_start_equity : Option ℚ
  rm : RiskManager
deriving DecidableEq, Repr

/-- The day-rollover block of `TradingBot.run` (source `main.py` lines
156-166): on a date change it resets `trades_today` and reseeds
`daily_start_equity` from the snapshot's equity; a still-unset
`daily_start_equity` is seeded afterwards. It touches no `RiskManager`
field. -/
def day_rollover (st : BotState) (today : ℤ) (info : AccountInfo) : BotState :=
  let st1 :=
    if today ≠ st.current_trading_day then
      { st with
          current_trading_day := today
          trades_today := 0
          daily_start_equity := info.equity }
    else st
  if st1.daily_start_equity = none then { st1 with daily_start_equity := info.equity }
  else st1

/-- Trade row status in the `trades` table. -/
inductive TradeStatus where
  | OPEN
  | CLOSED
deriving DecidableEq, Repr

/-- The successful `place_order` result dict that `log_trade` consumes. -/
structure TradeInput where
  order_id : ℤ
  symbol : String
  type : String
  volume : ℚ
  price : ℚ
  stop_loss : Option ℚ := none
  take_profit : Option ℚ := none
  timestamp : ℤ := 0
deriving DecidableEq, Repr

/-- A row of the `trades` table as inserted by `log_trade`. -/
structure TradeRow where
  order_id : ℤ
  symbol : String
  order_type : String
  volume : ℚ
  open_price : ℚ
  stop_loss : Option ℚ
  take_profit : Option ℚ
  open_time : ℤ
  status : TradeStatus
deriving DecidableEq, Repr

/-- The row built by the INSERT statement of `log_trade` (status 'OPEN'). -/
def rowOfTrade (t : TradeInput) : TradeRow :=
  { order_id := t.order_id
    symbol := t.symbol
    order_type := t.type
    volume := t.volume
    open_price := t.price
    stop_loss := t.stop_loss
    take_profit := t.take_profit
    open_time := t.timestamp
    status := TradeStatus.OPEN }

/-- `DatabaseManager.log_trade` (source `database.py` lines 183-222) over
the logical table state: `INSERT ... ON CONFLICT (order_id) DO NOTHING`
leaves the table unchanged and yields `rowcount = 0`, which the method
reports as `False` after a rollback; otherwise the row is committed and
the method returns `True`. -/
def log_trade (db : List TradeRow) (t : TradeInput) : List TradeRow × Bool :=
  if db.any (fun r => r.order_id == t.order_id) then (db, false)
  else (db ++ [rowOfTrade t], true)

/-- Number of rows of the table carrying a given `order_id`. -/
def countId (db : List TradeRow) (i : ℤ) : ℕ :=
  (db.filter (fun r => r.order_id == i)).length

/-- Signal actions produced by the agent. -/
inductive SigAction where
  | HOLD
  | BUY
  | SELL
  | CLOSE
deriving DecidableEq, Repr

/-- The loop state touched by the ACT step. -/
structure LoopState where
  trades_today : ℕ
  ledger : List TradeRow
deriving DecidableEq, Repr

/-- The ACT step of `TradingBot.run` (source `main.py` lines 181-193)
together with `execute_trade` (lines 220-248). `order_result` is the
outcome of `execute_trade`: `some t` when `place_order` reported success,
`none` when it failed or raised (then `execute_trade` returns `None`).
On success the counter is incremented, then the trade is logged (its
boolean result is ignored), then `agent.record_trade` runs; if that
feedback call raises, the iteration aborts (`false` flag) but the already
performed state mutations persist. HOLD does nothing; CLOSE only closes
broker positions. -/
def act_step (action : SigAction) (order_result : Option TradeInput) (feedback_ok : Bool)
    (st : LoopState) : LoopState × Bool :=
  match action with
  | SigAction.HOLD => (st, true)
  | SigAction.CLOSE => (st, true)
  | SigAction.BUY | SigAction.SELL =>
    match order_result with
    | none => (st, true)
    | some t =>
      ({ trades_today := st.trades_today + 1
         ledger := (log_trade st.ledger t).1 }, feedback_ok)

/-! Helper lemmas about the peaks dict. -/

/-- Looking up a key right after inserting it yields the inserted value. -/
theorem peaksLookup_peaksInsert (l : List (ℤ × ℚ)) (t : ℤ) (v : ℚ) :
    peaksLookup (peaksInsert l t v) t = some v := by
  simp [peaksLookup, peaksInsert]

/-- Looking up a key right after erasing it yields nothing. -/
theorem peaksLookup_peaksErase (l : List (ℤ × ℚ)) (t : ℤ) :
    peaksLookup (peaksErase l t) t = none := by
  unfold peaksLookup peaksErase
  rw [List.find?_filter]
  simp

/-! Claim theorems. -/

/-- Claim C1 (code bug evidence): a flat account (`margin = 0`) is mapped
by `get_account_info` to a snapshot with `margin_level = 0`, which the
margin-level check of `check_risk_limits` then fails, even though the same
account with positive used margin and healthy margin level passes every
check. -/
theorem margin_zero_blocks_risk_gate :
    (check_risk_limits {} (get_account_info ⟨10000, 10000, 0, 0, 10000, 0⟩)).2 = false ∧
    (get_account_info ⟨10000, 10000, 0, 0, 10000, 0⟩).margin_level = some 0 ∧
    (check_risk_limits {} (get_account_info ⟨10000, 10000, 0, 100, 9900, 500⟩)).2 = true := by
  norm_num [check_risk_limits, check_body, get_account_info]

/-- Claim C2 (code bug evidence): the day-rollover block resets
`trades_today` and reseeds the bot's `daily_start_equity` from the new
day's equity, but leaves `RiskManager.daily_start_balance` at the stale
previous-day value; a subsequent risk check that should breach the daily
loss limit against the reseeded start (loss 700/12000 ≥ 1/20) still
passes, because it is computed against the stale 10000. -/
theorem day_rollover_keeps_stale_start_balance :
    let st : BotState :=
      { current_trading_day := 100, trades_today := 7,
        daily_start_equity := some 10000,
        rm := { daily_start_balance := some 10000 } }
    let info2 : AccountInfo :=
      { balance := some 11000, equity := some 12000, margin_level := some 1000 }
    let st2 := day_rollover st 101 info2
    st2.trades_today = 0 ∧ st2.daily_start_equity = some 12000 ∧
    st2.current_trading_day = 101 ∧
    st2.rm.daily_start_balance = some 10000 ∧
    (check_risk_limits st2.rm
      { balance := some 11300, equity := some 11300, margin_level := some 1000 }).2 = true ∧
    st2.rm.max_daily_loss ≤ (12000 - 11300) / 12000 := by
  norm_num [day_rollover, check_risk_limits, check_body]

/-- Claim C3 (counterexample): at balance 0 the sizing result is 0, which
lies below the claimed floor of 0.01 (the claimed interval
`[0.01, balance/100000 * max_leverage]` is empty there). -/
theorem position_size_below_floor_at_zero_balance :
    calculate_position_size {} 0 20 (1/10000) = 0 ∧ ¬ ((1 : ℚ)/100 ≤ 0) := by
  norm_num [calculate_position_size, round2, roundEven]

/-- Clamp pattern of `calculate_position_size`: flooring at 0.01 and then
capping at a ceiling that is itself at least 0.01 keeps the value inside
`[0.01, ceiling]`. -/
theorem clamp_bounds (x maxp : ℚ) (h : 1/100 ≤ maxp) :
    1/100 ≤ (if maxp < (if x < 1/100 then 1/100 else x) then maxp
             else (if x < 1/100 then 1/100 else x)) ∧
    (if maxp < (if x < 1/100 then 1/100 else x) then maxp
     else (if x < 1/100 then 1/100 else x)) ≤ maxp := by
  split_ifs with h1 h2 h3 <;> constructor <;> linarith

/-- Claim C3 (amended): whenever the leverage ceiling
`balance/100000 * max_leverage` is at least the 0.01 floor, the sizing
result lies in `[0.01, balance/100000 * max_leverage]`. -/
theorem position_size_bounds (rm : RiskManager) (balance : ℚ) (slp : ℤ) (pv : ℚ)
    (h : 1/100 ≤ balance / 100000 * rm.max_leverage) :
    1/100 ≤ calculate_position_size rm balance slp pv ∧
    calculate_position_size rm balance slp pv ≤ balance / 100000 * rm.max_leverage := by
  unfold calculate_position_size
  by_cases h1 : slp ≤ 0
  · rw [if_pos h1]
    exact ⟨le_refl _, h⟩
  · rw [if_neg h1]
    by_cases h2 : (slp : ℚ) * (pv * 100000) = 0
    · rw [if_pos h2]
      exact ⟨le_refl _, h⟩
    · rw [if_neg h2]
      exact clamp_bounds _ _ h

/-- Witness for C3 (amended) at the spec's worked example: balance 10000,
20-pip stop, default config. -/
theorem position_size_bounds_witness :
    (1 : ℚ)/100 ≤ calculate_position_size {} 10000 20 (1/10000) ∧
    calculate_position_size {} 10000 20 (1/10000) ≤ 10000 / 100000 * (10 : ℚ) :=
  position_size_bounds {} 10000 20 (1/10000) (by norm_num)

/-- Claim C7: a non-positive stop-loss distance makes
`calculate_position_size` return exactly 0.01; the `ValueError` it raises
internally is caught by the method's own handler, so nothing propagates to
the caller (the embedding is a total function whose exception paths are
the explicit 0.01 branches). -/
theorem position_size_floor_on_nonpositive_pips (rm : RiskManager) (balance : ℚ)
    (slp : ℤ) (pv : ℚ) (h : slp ≤ 0) :
    calculate_position_size rm balance slp pv = 1/100 := by
  unfold calculate_position_size
  rw [if_pos h]

/-- Witness for C7 at `stop_loss_pips = 0`. -/
theorem position_size_floor_on_nonpositive_pips_witness :
    calculate_position_size {} 10000 0 (1/10000) = 1/100 :=
  position_size_floor_on_nonpositive_pips {} 10000 0 (1/10000) (by decide)

/-- Claim C10: `trades_today` grows by exactly 1 exactly when the signal
is BUY or SELL and order placement succeeded, for every ledger content
(duplicates included, since `log_trade`'s boolean is ignored) and whether
or not the agent-feedback call completes; HOLD, CLOSE and failed
placements leave it unchanged. -/
theorem trades_today_increment (action : SigAction) (r : Option TradeInput)
    (fb : Bool) (st : LoopState) :
    ((act_step action r fb st).1).trades_today =
      if (action = SigAction.BUY ∨ action = SigAction.SELL) ∧ r.isSome
      then st.trades_today + 1 else st.trades_today := by
  cases action <;> cases r <;> simp [act_step]

/-- Claim C5 (counterexample): a tracked long position (ticket 3, peak
0.05) evaluated at a 10% loss triggers the hard stop and returns
must-close, but its tracking entry is NOT removed, refuting the claim
that the position leaves tracking on this close. -/
theorem hard_stop_claim_keeps_peak :
    (should_close_position { position_peaks := [(3, 1/20)] }
       ⟨PosType.BUY, 1, 1, some 3⟩ (9/10)).2 = true ∧
    peaksLookup (should_close_position { position_peaks := [(3, 1/20)] }
       ⟨PosType.BUY, 1, 1, some 3⟩ (9/10)).1.position_peaks 3 = some (1/20) ∧
    pnl_pct ⟨PosType.BUY, 1, 1, some 3⟩ (9/10) ≤ -(1/50) := by
  norm_num [should_close_position, pnl_pct, peaksLookup, List.find?]

/-- Claim C5 (amended): when PnL% ≤ `-max_risk_per_trade`, the evaluator
returns must-close and adds `max(0, volume * (entry - current))` to
`daily_losses`, while the position's peak entry (if any) is retained
unchanged; removal happens only through the trailing branch or the
explicit `clear_position_peak` callback. -/
theorem hard_stop_adds_loss_keeps_peaks (rm : RiskManager) (pos : Position) (price : ℚ)
    (hopen : pos.price_open ≠ 0)
    (hstop : pnl_pct pos price ≤ -rm.max_risk_per_trade) :
    should_close_position rm pos price =
      ({ rm with daily_losses :=
          rm.daily_losses + max 0 (pos.volume * (pos.price_open - price)) }, true) := by
  simp [should_close_position, hopen, hstop]

/-- Witness for C5 (amended) at a concrete 5% loss on a tracked long. -/
theorem hard_stop_adds_loss_keeps_peaks_witness :
    should_close_position { position_peaks := [(2, 1/20)] }
        ⟨PosType.BUY, 2, 3, some 2⟩ (19/10)
      = ({ position_peaks := [(2, 1/20)],
           daily_losses := 0 + max 0 (3 * (2 - 19/10)) }, true) :=
  hard_stop_adds_loss_keeps_peaks { position_peaks := [(2, 1/20)] }
    ⟨PosType.BUY, 2, 3, some 2⟩ (19/10) (by norm_num) (by norm_num [pnl_pct])

/-- Claim C4 (counterexample): a tracked long (ticket 1, peak 0.03)
observed at PnL% = -0.05 satisfies PnL% ≤ 0.5·peak, and evaluate returns
must-close — but via the hard stop, so the tracking entry is NOT deleted,
refuting the deletion part of the claim as stated. -/
theorem trailing_claim_fails_on_hard_stop :
    (should_close_position { position_peaks := [(1, 3/100)] }
       ⟨PosType.BUY, 1, 1, some 1⟩ (19/20)).2 = true ∧
    peaksLookup (should_close_position { position_peaks := [(1, 3/100)] }
       ⟨PosType.BUY, 1, 1, some 1⟩ (19/20)).1.position_peaks 1 = some (3/100) ∧
    pnl_pct ⟨PosType.BUY, 1, 1, some 1⟩ (19/20) ≤ (3/100) / 2 := by
  norm_num [should_close_position, pnl_pct, peaksLookup, List.find?]

/-- Claim C4 (amended): for a position in TRACKING with recorded peak
p > 0, if the observed PnL% falls to ≤ 0.5·p while staying above the hard
stop `-max_risk_per_trade`, evaluate returns must-close, deletes the
tracking entry, and an immediate re-evaluation of the same position does
not re-trigger. -/
theorem trailing_stop_deletes_peak (rm : RiskManager) (pos : Position) (price : ℚ)
    (t : ℤ) (p : ℚ)
    (ht : pos.ticket = some t)
    (hp : peaksLookup rm.position_peaks t = some p)
    (hppos : 0 < p)
    (hopen : pos.price_open ≠ 0)
    (hfall : pnl_pct pos price ≤ p / 2)
    (hnostop : -rm.max_risk_per_trade < pnl_pct pos price) :
    (should_close_position rm pos price).2 = true ∧
    peaksLookup (should_close_position rm pos price).1.position_peaks t = none ∧
    (should_close_position (should_close_position rm pos price).1 pos price).2 = false := by
  have hnl : ¬ (pnl_pct pos price ≤ -rm.max_risk_per_trade) := not_le.mpr hnostop
  have hple : pnl_pct pos price ≤ p := le_trans hfall (by linarith)
  by_cases hth : profit_threshold < pnl_pct pos price
  · have hmax : max p (pnl_pct pos price) = p := max_eq_left hple
    have h0 : (0 : ℚ) ≤ pnl_pct pos price :=
      le_of_lt (lt_trans (by norm_num [profit_threshold]) hth)
    have hmax2 : max 0 (pnl_pct pos price) = pnl_pct pos price := max_eq_right h0
    have hnotretrigger : ¬ (pnl_pct pos price ≤ pnl_pct pos price / 2) := by
      have : (0 : ℚ) < pnl_pct pos price :=
        lt_trans (by norm_num [profit_threshold]) hth
      intro hc
      linarith
    have e1 : should_close_position rm pos price =
        ({ rm with position_peaks :=
             peaksErase (peaksInsert rm.position_peaks t p) t }, true) := by
      simp [should_close_position, hopen, hnl, ht, hth, hp, hmax,
        peaksLookup_peaksInsert, hppos, hfall]
    refine ⟨by rw [e1], ?_, ?_⟩
    · rw [e1]
      exact peaksLookup_peaksErase _ _
    · rw [e1]
      simp [should_close_position, hopen, hnl, ht, hth,
        peaksLookup_peaksErase, hmax2, peaksLookup_peaksInsert, hnotretrigger]
  · have e1 : should_close_position rm pos price =
        ({ rm with position_peaks := peaksErase rm.position_peaks t }, true) := by
      simp [should_close_position, hopen, hnl, ht, hth, hp, hppos, hfall]
    refine ⟨by rw [e1], ?_, ?_⟩
    · rw [e1]
      exact peaksLookup_peaksErase _ _
    · rw [e1]
      simp [should_close_position, hopen, hnl, ht, hth, peaksLookup_peaksErase]

/-- Witness for C4 (amended): the spec's example — entry 1.1 long, peak
0.03, retrace to PnL% = 0.014 ≤ 0.015 — triggers, deletes the entry, and
does not immediately re-trigger. -/
theorem trailing_stop_deletes_peak_witness :
    (should_close_position { position_peaks := [(1, 3/100)] }
       ⟨PosType.BUY, 11/10, 1, some 1⟩ (5577/5000)).2 = true ∧
    peaksLookup (should_close_position { position_peaks := [(1, 3/100)] }
       ⟨PosType.BUY, 11/10, 1, some 1⟩ (5577/5000)).1.position_peaks 1 = none ∧
    (should_close_position (should_close_position { position_peaks := [(1, 3/100)] }
       ⟨PosType.BUY, 11/10, 1, some 1⟩ (5577/5000)).1
       ⟨PosType.BUY, 11/10, 1, some 1⟩ (5577/5000)).2 = false :=
  trailing_stop_deletes_peak { position_peaks := [(1, 3/100)] }
    ⟨PosType.BUY, 11/10, 1, some 1⟩ (5577/5000) 1 (3/100)
    rfl (by norm_num [peaksLookup, List.find?]) (by norm_num) (by norm_num)
    (by norm_num [pnl_pct]) (by norm_num [pnl_pct])

/-- Claim C6 (counterexample): with start 10000, balance 9400 (a 6% ≥ 5%
breach) but `open_positions = 5 ≥ max_positions = 3`, the check returns
false through the position-count reject and `daily_losses` does NOT grow
by 600, refuting the unconditional accumulation in the claim. -/
theorem daily_loss_not_accumulated_when_positions_reject :
    (check_risk_limits { daily_start_balance := some 10000 }
        { balance := some 9400, equity := some 9400, margin_level := some 1000,
          open_positions := some (OpenPosVal.intVal 5) }).2 = false ∧
    (check_risk_limits { daily_start_balance := some 10000 }
        { balance := some 9400, equity := some 9400, margin_level := some 1000,
          open_positions := some (OpenPosVal.intVal 5) }).1.daily_losses = 0 ∧
    ((1 : ℚ)/20) ≤ (10000 - 9400) / 10000 := by
  norm_num [check_risk_limits, check_body]

/-- Claim C6 (amended): provided the earlier open-positions check does not
reject the snapshot, a daily-loss breach with positive start balance
returns false and adds exactly `max(0, start_balance - balance)` to
`daily_losses`. -/
theorem daily_loss_breach_accumulates (rm : RiskManager) (info : AccountInfo) (sb b : ℚ)
    (hsb : rm.daily_start_balance = some sb) (hsb0 : 0 < sb)
    (hb : info.balance = some b)
    (hpos : ∀ n, info.open_positions = some (OpenPosVal.intVal n) → n < rm.max_positions)
    (hbreach : rm.max_daily_loss ≤ (sb - b) / sb) :
    (check_risk_limits rm info).2 = false ∧
    (check_risk_limits rm info).1.daily_losses = rm.daily_losses + max 0 (sb - b) := by
  have hsb' : ¬ (sb ≤ 0) := not_le.mpr hsb0
  have hreject : (match info.open_positions with
      | some (OpenPosVal.intVal n) => decide (rm.max_positions ≤ n)
      | _ => false) = false := by
    cases hop : info.open_positions with
    | none => rfl
    | some v =>
      cases v with
      | intVal n =>
        have hn := hpos n hop
        simp [decide_eq_false_iff_not, not_le, hn]
      | unparsable => rfl
  constructor <;>
    simp [check_risk_limits, check_body, hsb, hb, hreject, hsb', hbreach]

/-- Witness for C6 (amended) at the spec's example: start 10000, balance
9400 — false, and the accumulator grows by 600. -/
theorem daily_loss_breach_accumulates_witness :
    (check_risk_limits { daily_start_balance := some 10000 }
        { balance := some 9400, equity := some 9400, margin_level := some 1000 }).2 = false ∧
    (check_risk_limits { daily_start_balance := some 10000 }
        { balance := some 9400, equity := some 9400, margin_level := some 1000 }).1.daily_losses
      = 0 + max 0 (10000 - 9400) :=
  daily_loss_breach_accumulates
    { daily_start_balance := some 10000 }
    { balance := some 9400, equity := some 9400, margin_level := some 1000 }
    10000 9400 rfl (by norm_num) rfl (fun n hn => by cases hn) (by norm_num)

/-- Claim C8: inserting a trade whose `order_id` already has exactly one
row leaves the table unchanged (still exactly one row for that id) and
reports the non-fatal `false`; the ON CONFLICT clause makes the duplicate
a no-op rather than an error. -/
theorem log_trade_idempotent (db : List TradeRow) (t : TradeInput)
    (h : countId db t.order_id = 1) :
    log_trade db t = (db, false) ∧ countId (log_trade db t).1 t.order_id = 1 := by
  have hne : db.filter (fun r => r.order_id == t.order_id) ≠ [] := by
    intro hemp
    unfold countId at h
    rw [hemp] at h
    simp at h
  obtain ⟨r, hr⟩ := List.exists_mem_of_ne_nil _ hne
  have hrf := List.mem_filter.mp hr
  have hany : db.any (fun r => r.order_id == t.order_id) = true :=
    List.any_eq_true.mpr ⟨r, hrf.1, hrf.2⟩
  refine ⟨?_, ?_⟩ <;> simp [log_trade, hany, h]

/-- Witness for C8: a second insert of order 7 is a no-op returning
false, leaving one row. -/
theorem log_trade_idempotent_witness :
    log_trade [rowOfTrade ⟨7, "EURUSD", "BUY", 1, 11/10, none, none, 0⟩]
        ⟨7, "EURUSD", "BUY", 1, 11/10, none, none, 0⟩
      = ([rowOfTrade ⟨7, "EURUSD", "BUY", 1, 11/10, none, none, 0⟩], false) ∧
    countId (log_trade [rowOfTrade ⟨7, "EURUSD", "BUY", 1, 11/10, none, none, 0⟩]
        ⟨7, "EURUSD", "BUY", 1, 11/10, none, none, 0⟩).1 7 = 1 :=
  log_trade_idempotent
    [rowOfTrade ⟨7, "EURUSD", "BUY", 1, 11/10, none, none, 0⟩]
    ⟨7, "EURUSD", "BUY", 1, 11/10, none, none, 0⟩
    (by norm_num [countId, rowOfTrade, List.filter])

/-- Claim C9: `check_risk_limits` is total and fail-safe — a snapshot
missing its `balance` or `equity` key makes it return false (the
`KeyError` is caught, not propagated), and an unparsable `open_positions`
value is swallowed by the inner `except`, behaving exactly like an absent
key. Totality is by construction: the embedding is a total function whose
exception paths are explicit false-returning branches. -/
theorem check_risk_limits_failsafe (rm : RiskManager) (info : AccountInfo) :
    ((info.balance = none ∨ info.equity = none) → (check_risk_limits rm info).2 = false) ∧
    check_risk_limits rm { info with open_positions := some OpenPosVal.unparsable }
      = check_risk_limits rm { info with open_positions := none } := by
  constructor
  · rintro (hb | he)
    · cases hd : rm.daily_start_balance <;>
        simp [check_risk_limits, check_body, hb, hd]
    · unfold check_risk_limits check_body
      cases hd : rm.daily_start_balance <;> cases hbal : info.balance <;>
        simp only [he, hbal] <;> (repeat' split) <;> rfl
  · unfold check_risk_limits check_body
    cases hd : rm.daily_start_balance <;> cases hbal : info.balance <;> simp [hbal]

/-- Witness for C9: a snapshot without a `balance` key yields false. -/
theorem check_risk_limits_failsafe_witness :
    (check_risk_limits {} { equity := some 1000 }).2 = false :=
  (check_risk_limits_failsafe {} { equity := some 1000 }).1 (Or.inl rfl)

end MT5Bot
